import Mathlib

/-!
Shallow embedding of the request handlers in
`src/backend/controllers/userController.ts` (carebear backend).

The document stores (`User`, `Group` models, files `backend/models/*.ts` not
present under `src/`) are modelled from the spec: the User store maps a user id
to a record with `groupID`, `additionalGroups`, profile fields and
`notificationPreferences`; the Group store maps a group id to `name` plus an
ordered `members` list of `(user ref, role, familialRelation)`.  `findById` is
first-match lookup in an association list keyed by id (ids are unique in the
store, so first match equals any-match).  JavaScript truthiness is modelled
explicitly: a missing value (`none`) and the empty string are falsy, the
number 0 is falsy; object values (document references, sub-documents) are
truthy whenever present, hence `Option.isSome` for reference fields.
-/

set_option autoImplicit false

namespace UserController

/-- A member entry embedded in a group document: `{user, role, familialRelation}`.
`user` is the string form of the referenced user id (`member.user.toString()`). -/
structure GroupMember where
  user : String
  role : String
  familialRelation : Option String
deriving DecidableEq

/-- Modelled from the spec: a Group document (backend/models/Group.ts is not in
src/): `name` and an ordered `members` list. -/
structure GroupDoc where
  name : String
  members : List GroupMember
deriving DecidableEq

/-- An entry of a user's `additionalGroups` list: `{groupID}` (a group ref,
kept as its string form). -/
structure AdditionalGroup where
  groupID : String
deriving DecidableEq

/-- The four-flag notification preference bag. -/
structure NotificationPreferences where
  doNotDisturb : Bool
  newFeed : Bool
  newActivity : Bool
  invites : Bool
deriving DecidableEq

/-- Modelled from the spec: a User document (backend/models/User.ts is not in
src/): primary `groupID` (optional ref), `additionalGroups`, profile and
onboarding fields, `notificationPreferences` (absent until first set). -/
structure UserDoc where
  email : String
  name : String
  username : Option String
  image : Option String
  firstName : Option String
  lastName : Option String
  imageURL : Option String
  groupID : Option String
  additionalGroups : List AdditionalGroup
  notificationPreferences : Option NotificationPreferences
  dateOfBirth : Option String
  gender : Option String
  weight : Option Int
  height : Option Int
deriving DecidableEq

/-- Modelled from the spec: the document stores, each a collection keyed by the
document id. -/
structure DB where
  users : List (String × UserDoc)
  groups : List (String × GroupDoc)
deriving DecidableEq

/-- `Model.findById(id)`: first-match lookup in a collection. -/
def findById {α : Type} (store : List (String × α)) (id : String) : Option α :=
  match store with
  | [] => none
  | (k, v) :: rest => if k = id then some v else findById rest id

/-- JS truthiness of an optional string (absent and `""` are falsy). -/
def truthyStr (s : Option String) : Bool :=
  match s with
  | some v => v ≠ ""
  | none => false

/-- JS truthiness of an optional number (absent and `0` are falsy). -/
def truthyInt (n : Option Int) : Bool :=
  match n with
  | some v => v ≠ 0
  | none => false

/-- `x || null` for an optional string field: an absent or empty string becomes
`null` (modelled as `none`). -/
def orNull (s : Option String) : Option String :=
  match s with
  | some v => if v = "" then none else some v
  | none => none

/-- `isUserAdminOfGroup(userID, groupID)` (userController.ts lines 20-37):
loads the group; `false` if absent; otherwise `find` of a member with
`member.user.toString() === userID && member.role === 'admin'`, coerced with
`!!`. -/
def isUserAdminOfGroup (db : DB) (userID groupID : String) : Bool :=
  match findById db.groups groupID with
  | none => false
  | some group =>
    (group.members.find? (fun member => member.user == userID && member.role == "admin")).isSome

theorem findById_nil {α : Type} (id : String) : findById ([] : List (String × α)) id = none := rfl

theorem findById_cons {α : Type} (k : String) (v : α) (rest : List (String × α)) (id : String) :
    findById ((k, v) :: rest) id = if k = id then some v else findById rest id := rfl

/-- **C1.** `isUserAdminOfGroup(U, G)` returns true iff group `G` exists and
its member list has an entry whose user reference equals `U` and whose role is
`"admin"`; for a non-existent group (lookup yields nothing, which also models a
lookup error caught by the handler) it returns false. -/
theorem isUserAdminOfGroup_iff (db : DB) (U G : String) :
    isUserAdminOfGroup db U G = true ↔
      ∃ g, findById db.groups G = some g ∧
        ∃ m ∈ g.members, m.user = U ∧ m.role = "admin" := by
  unfold isUserAdminOfGroup
  cases h : findById db.groups G with
  | none =>
    simp [h]
  | some g =>
    simp only [h, List.find?_isSome]
    constructor
    · rintro ⟨m, hm, hp⟩
      refine ⟨g, rfl, m, hm, ?_⟩
      simpa [Bool.and_eq_true, beq_iff_eq] using hp
    · rintro ⟨g', hg', m, hm, hu, hr⟩
      cases Option.some.inj hg'
      exact ⟨m, hm, by simp [hu, hr]⟩

/-- `findByIdAndUpdate` persistence: replace the (unique) binding of `id`. -/
def setStore {α : Type} (store : List (String × α)) (id : String) (v : α) : List (String × α) :=
  store.map (fun p => if p.1 = id then (id, v) else p)

/-- A user document with every optional field absent, used to build concrete
store states. -/
def emptyUser : UserDoc :=
  { email := "", name := "", username := none, image := none, firstName := none,
    lastName := none, imageURL := none, groupID := none, additionalGroups := [],
    notificationPreferences := none, dateOfBirth := none, gender := none,
    weight := none, height := none }

/-- The JSON responses of `checkUserAdminStatus`, one constructor per
`res.status(..).json(..)` site (lines 39-87). -/
inductive AdminStatusResponse where
  | missingIds
  | userNotFound
  | groupNotFound
  | notMember (isAdmin isMember : Bool) (message : String)
  | memberRecord (isAdmin isMember : Bool) (role : String)
      (familialRelation : Option String) (groupName : String)
deriving DecidableEq

def AdminStatusResponse.status : AdminStatusResponse → Nat
  | .missingIds => 400
  | .userNotFound => 404
  | .groupNotFound => 404
  | .notMember _ _ _ => 200
  | .memberRecord _ _ _ _ _ => 200

/-- `checkUserAdminStatus` (lines 39-87): 400 on missing params, 404 on missing
user or group, otherwise computes `isAdmin`, finds the caller's member entry,
and answers 200 either with the literal non-member body or with the member's
role/relation/group name. -/
def checkUserAdminStatus (db : DB) (userID groupID : String) : AdminStatusResponse :=
  if userID = "" ∨ groupID = "" then .missingIds
  else
    match findById db.users userID with
    | none => .userNotFound
    | some _ =>
      match findById db.groups groupID with
      | none => .groupNotFound
      | some group =>
        let isAdmin := isUserAdminOfGroup db userID groupID
        match group.members.find? (fun member => member.user == userID) with
        | none => .notMember false false "User is not a member of this group"
        | some memberRecord =>
          .memberRecord isAdmin true memberRecord.role
            (orNull memberRecord.familialRelation) group.name

/-- Responses of `getNotificationPreferences` (lines 623-650). -/
inductive PreferencesResponse where
  | userNotFound
  | ok (preferences : NotificationPreferences)
deriving DecidableEq

def PreferencesResponse.status : PreferencesResponse → Nat
  | .userNotFound => 404
  | .ok _ => 200

/-- The default bag substituted by `user.notificationPreferences || {...}`. -/
def defaultPreferences : NotificationPreferences :=
  { doNotDisturb := false, newFeed := true, newActivity := true, invites := true }

/-- `getNotificationPreferences` (lines 623-650): 404 when the user is absent,
else 200 with the stored bag, or the default bag when none is stored. -/
def getNotificationPreferences (db : DB) (userID : String) : PreferencesResponse :=
  match findById db.users userID with
  | none => .userNotFound
  | some user => .ok (user.notificationPreferences.getD defaultPreferences)

/-- The onboarding request body of `provideAdditionalUserInfo`. -/
structure OnboardingBody where
  firstName : Option String
  lastName : Option String
  dateOfBirth : Option String
  gender : Option String
  weight : Option Int
  height : Option Int
deriving DecidableEq

inductive OnboardingResponse where
  | missingFields (message : String)
  | userNotFound
  | ok (user : UserDoc)
deriving DecidableEq

def OnboardingResponse.status : OnboardingResponse → Nat
  | .missingFields _ => 400
  | .userNotFound => 404
  | .ok _ => 200

/-- Response plus resulting user store (the handler may mutate the user). -/
structure OnboardingResult where
  response : OnboardingResponse
  users : List (String × UserDoc)
deriving DecidableEq

/-- `provideAdditionalUserInfo` (lines 89-133): the required-field guard is
`!firstName || !lastName || !dateOfBirth || !gender || !weight || !height`
(JS truthiness), then `findByIdAndUpdate` with `$set` of the six fields. -/
def provideAdditionalUserInfo (db : DB) (userID : String) (body : OnboardingBody) :
    OnboardingResult :=
  if !truthyStr body.firstName || !truthyStr body.lastName || !truthyStr body.dateOfBirth
      || !truthyStr body.gender || !truthyInt body.weight || !truthyInt body.height then
    ⟨.missingFields "Please fill out all fields to complete onboarding", db.users⟩
  else
    match findById db.users userID with
    | none => ⟨.userNotFound, db.users⟩
    | some user =>
      let updated := { user with
        firstName := body.firstName, lastName := body.lastName,
        dateOfBirth := body.dateOfBirth, gender := body.gender,
        weight := body.weight, height := body.height }
      ⟨.ok updated, setStore db.users userID updated⟩

/-- The `updateUser` request body (interface `UserBody`, all fields optional in
a partial update). -/
structure UpdateUserBody where
  email : Option String
  name : Option String
  username : Option String
  image : Option String
deriving DecidableEq

inductive UpdateUserResponse where
  | userNotFound
  | ok (user : UserDoc)
deriving DecidableEq

def UpdateUserResponse.status : UpdateUserResponse → Nat
  | .userNotFound => 404
  | .ok _ => 200

structure UpdateUserResult where
  response : UpdateUserResponse
  users : List (String × UserDoc)
deriving DecidableEq

/-- `$set: updates` — overwrite exactly the fields present in the payload. -/
def applyUserUpdates (user : UserDoc) (updates : UpdateUserBody) : UserDoc :=
  { user with
    email := updates.email.getD user.email,
    name := updates.name.getD user.name,
    username := match updates.username with | some v => some v | none => user.username,
    image := match updates.image with | some v => some v | none => user.image }

/-- `updateUser` (lines 272-298): `if (updates.email) delete updates.email`
(a truthiness test, so a falsy email value survives), then `findByIdAndUpdate`
with `$set: updates`. -/
def updateUser (db : DB) (userID : String) (body : UpdateUserBody) : UpdateUserResult :=
  let updates := if truthyStr body.email then { body with email := none } else body
  match findById db.users userID with
  | none => ⟨.userNotFound, db.users⟩
  | some user =>
    let updated := applyUserUpdates user updates
    ⟨.ok updated, setStore db.users userID updated⟩

/-- **C10.** When the user and the group both exist but the user is not in the
group's member list, `checkUserAdminStatus` answers 200 (not 404) with the body
`isAdmin:false, isMember:false, message:'User is not a member of this group'`. -/
theorem checkUserAdminStatus_nonMember_200 (db : DB) (userID groupID : String)
    (user : UserDoc) (group : GroupDoc)
    (hu : userID ≠ "") (hg : groupID ≠ "")
    (hfu : findById db.users userID = some user)
    (hfg : findById db.groups groupID = some group)
    (hnm : ∀ m ∈ group.members, m.user ≠ userID) :
    checkUserAdminStatus db userID groupID =
      .notMember false false "User is not a member of this group" ∧
    (checkUserAdminStatus db userID groupID).status = 200 := by
  have hfind : group.members.find? (fun member => member.user == userID) = none := by
    rw [List.find?_eq_none]
    intro m hm
    simpa using hnm m hm
  have h1 : checkUserAdminStatus db userID groupID =
      .notMember false false "User is not a member of this group" := by
    unfold checkUserAdminStatus
    simp [hu, hg, hfu, hfg, hfind]
  exact ⟨h1, by rw [h1]; rfl⟩

def c10Group : GroupDoc :=
  { name := "Fam", members := [{ user := "u1", role := "admin", familialRelation := none }] }

def c10DB : DB := ⟨[("u2", emptyUser)], [("g1", c10Group)]⟩

/-- Witness for C10 at a concrete store: `u2` exists, group `g1` exists, `u2`
is not among its members. -/
theorem checkUserAdminStatus_nonMember_200_witness :
    checkUserAdminStatus c10DB "u2" "g1" =
      .notMember false false "User is not a member of this group" ∧
    (checkUserAdminStatus c10DB "u2" "g1").status = 200 :=
  checkUserAdminStatus_nonMember_200 c10DB "u2" "g1" emptyUser c10Group
    (by decide) (by decide) rfl rfl (by decide)

/-- **C8.** A user that exists with no stored `notificationPreferences` gets a
200 with exactly the default bag
`doNotDisturb:false, newFeed:true, newActivity:true, invites:true`. -/
theorem getNotificationPreferences_default (db : DB) (userID : String) (user : UserDoc)
    (hf : findById db.users userID = some user)
    (hn : user.notificationPreferences = none) :
    getNotificationPreferences db userID =
      .ok { doNotDisturb := false, newFeed := true, newActivity := true, invites := true } ∧
    (getNotificationPreferences db userID).status = 200 := by
  have h1 : getNotificationPreferences db userID = .ok defaultPreferences := by
    unfold getNotificationPreferences
    simp [hf, hn, defaultPreferences]
  exact ⟨h1, by rw [h1]; rfl⟩

def c8DB : DB := ⟨[("u1", emptyUser)], []⟩

/-- Witness for C8: `u1` exists and stores no preference bag. -/
theorem getNotificationPreferences_default_witness :
    getNotificationPreferences c8DB "u1" =
      .ok { doNotDisturb := false, newFeed := true, newActivity := true, invites := true } ∧
    (getNotificationPreferences c8DB "u1").status = 200 :=
  getNotificationPreferences_default c8DB "u1" emptyUser rfl rfl

/-- **C9.** `provideAdditionalUserInfo` tests required fields by truthiness:
with all six fields supplied, a weight or height of 0 or any empty-string field
is rejected with 400 'Please fill out all fields to complete onboarding' and
the user store is unchanged. -/
theorem provideAdditionalUserInfo_truthiness_400 (db : DB) (userID : String)
    (body : OnboardingBody)
    (hall : body.firstName.isSome ∧ body.lastName.isSome ∧ body.dateOfBirth.isSome ∧
            body.gender.isSome ∧ body.weight.isSome ∧ body.height.isSome)
    (hbad : body.weight = some 0 ∨ body.height = some 0 ∨ body.firstName = some "" ∨
            body.lastName = some "" ∨ body.dateOfBirth = some "" ∨ body.gender = some "") :
    provideAdditionalUserInfo db userID body =
      ⟨.missingFields "Please fill out all fields to complete onboarding", db.users⟩ ∧
    (provideAdditionalUserInfo db userID body).response.status = 400 := by
  have h1 : provideAdditionalUserInfo db userID body =
      ⟨.missingFields "Please fill out all fields to complete onboarding", db.users⟩ := by
    unfold provideAdditionalUserInfo
    rcases hbad with h | h | h | h | h | h <;> simp [truthyStr, truthyInt, h]
  exact ⟨h1, by rw [h1]; rfl⟩

def c9Body : OnboardingBody :=
  { firstName := some "A", lastName := some "B", dateOfBirth := some "2000-01-01",
    gender := some "f", weight := some 0, height := some 170 }

/-- Witness for C9: all six onboarding fields supplied but `weight` is the
number 0. -/
theorem provideAdditionalUserInfo_truthiness_400_witness :
    provideAdditionalUserInfo c8DB "u1" c9Body =
      ⟨.missingFields "Please fill out all fields to complete onboarding", c8DB.users⟩ ∧
    (provideAdditionalUserInfo c8DB "u1" c9Body).response.status = 400 :=
  provideAdditionalUserInfo_truthiness_400 c8DB "u1" c9Body
    (by decide) (by decide)

def c3User : UserDoc := { emptyUser with email := "a@b.com", name := "Alice" }

def c3DB : DB := ⟨[("u1", c3User)], []⟩

def c3Body : UpdateUserBody := { email := some "", name := some "Bob", username := none, image := none }

/-- **C3.** The email strip in `updateUser` is a truthiness test, not
unconditional: on the body `email:"", name:"Bob"` the empty email survives the
`if (updates.email)` guard and `$set` overwrites the stored email `"a@b.com"`
with `""` while the call succeeds — the stored email does change. -/
theorem updateUser_empty_email_overwrites :
    (findById c3DB.users "u1").map UserDoc.email = some "a@b.com" ∧
    (updateUser c3DB "u1" c3Body).response = .ok { c3User with email := "", name := "Bob" } ∧
    (updateUser c3DB "u1" c3Body).response.status = 200 ∧
    (findById (updateUser c3DB "u1" c3Body).users "u1").map UserDoc.email = some "" := by
  refine ⟨rfl, by decide, rfl, rfl⟩

/-- `if (user.groupID) groupIDs.push(user.groupID.toString())`: the primary
group id first, when present. -/
def primaryGroupList (user : UserDoc) : List String :=
  match user.groupID with
  | some g => [g]
  | none => []

/-- Responses of `getAllUserGroups` (lines 136-186): ids plus the formatted
`{id, name}` objects. -/
inductive AllUserGroupsResponse where
  | userNotFound
  | ok (groupIDs : List String) (groups : List (String × String))
deriving DecidableEq

def AllUserGroupsResponse.status : AllUserGroupsResponse → Nat
  | .userNotFound => 404
  | .ok _ _ => 200

/-- `Group.find({_id: {$in: groupIDs}})` mapped to `{id, name}`, in store
order. -/
def formatGroups (db : DB) (ids : List String) : List (String × String) :=
  (db.groups.filter (fun p => ids.contains p.1)).map (fun p => (p.1, p.2.name))

/-- `getAllUserGroups` (lines 136-186): primary group id first (when present),
then each `additionalGroups` entry's `groupID` that passes the
`if (group && group.groupID)` truthiness guard, in stored order; then one batch
fetch of the group names. -/
def getAllUserGroups (db : DB) (userID : String) : AllUserGroupsResponse :=
  match findById db.users userID with
  | none => .userNotFound
  | some user =>
    let groupIDs := primaryGroupList user ++
      user.additionalGroups.filterMap (fun g => if g.groupID ≠ "" then some g.groupID else none)
    .ok groupIDs (formatGroups db groupIDs)

/-- Responses of `getAllGroups` (lines 230-268). -/
inductive AllGroupsResponse where
  | badRequest
  | userNotFound
  | ok (userID : String) (groupIDs : List String) (totalGroups : Nat)
      (hasAdditionalGroups : Bool)
deriving DecidableEq

def AllGroupsResponse.status : AllGroupsResponse → Nat
  | .badRequest => 400
  | .userNotFound => 404
  | .ok _ _ _ _ => 200

/-- `getAllGroups` (lines 230-268): primary group id first (when present), then
all `additionalGroups[].groupID` (guarded only by `length > 0`, no per-entry
check), plus a count and the has-additional flag. -/
def getAllGroups (db : DB) (userID : String) : AllGroupsResponse :=
  if userID = "" then .badRequest
  else
    match findById db.users userID with
    | none => .userNotFound
    | some user =>
      let base := primaryGroupList user
      let groupIDs :=
        if user.additionalGroups.length > 0 then
          base ++ user.additionalGroups.map (fun g => g.groupID)
        else base
      .ok userID groupIDs groupIDs.length (decide (user.additionalGroups.length > 0))

theorem filterMap_truthy_eq_map (l : List AdditionalGroup)
    (h : ∀ g ∈ l, g.groupID ≠ "") :
    l.filterMap (fun g => if g.groupID ≠ "" then some g.groupID else none) =
      l.map (fun g => g.groupID) := by
  induction l with
  | nil => rfl
  | cons x xs ih =>
    have hx : x.groupID ≠ "" := h x (List.mem_cons_self x xs)
    simp only [List.filterMap_cons, List.map_cons, if_pos hx]
    rw [ih (fun g hg => h g (List.mem_cons_of_mem x hg))]

/-- **C6.** For every existing user, both `getAllUserGroups` and `getAllGroups`
return the group id list that is the primary `groupID` (when present) followed
by the `additionalGroups` entries' `groupID`s in stored order, with no
de-duplication, of length (0 or 1) + `additionalGroups.length`.  (Entries carry
a real, non-empty group ref, as the store invariant guarantees.) -/
theorem groupList_primary_then_additional (db : DB) (userID : String) (user : UserDoc)
    (hf : findById db.users userID = some user)
    (hu : userID ≠ "")
    (hids : ∀ g ∈ user.additionalGroups, g.groupID ≠ "") :
    getAllUserGroups db userID =
      .ok (primaryGroupList user ++ user.additionalGroups.map (fun g => g.groupID))
        (formatGroups db (primaryGroupList user ++ user.additionalGroups.map (fun g => g.groupID))) ∧
    getAllGroups db userID =
      .ok userID (primaryGroupList user ++ user.additionalGroups.map (fun g => g.groupID))
        (primaryGroupList user ++ user.additionalGroups.map (fun g => g.groupID)).length
        (decide (user.additionalGroups.length > 0)) ∧
    (primaryGroupList user ++ user.additionalGroups.map (fun g => g.groupID)).length =
      (if user.groupID.isSome then 1 else 0) + user.additionalGroups.length := by
  refine ⟨?_, ?_, ?_⟩
  · unfold getAllUserGroups
    simp only [hf]
    rw [filterMap_truthy_eq_map user.additionalGroups hids]
  · unfold getAllGroups
    rw [if_neg hu]
    simp only [hf]
    by_cases hlen : user.additionalGroups.length > 0
    · simp only [if_pos hlen]
    · have hnil : user.additionalGroups = [] := List.length_eq_zero.mp (Nat.eq_zero_of_not_pos hlen)
      simp [hnil]
  · rw [List.length_append, List.length_map]
    cases hgid : user.groupID <;> simp [primaryGroupList, hgid]

def c6User : UserDoc :=
  { emptyUser with groupID := some "g1", additionalGroups := [⟨"g2"⟩, ⟨"g3"⟩] }

def c6DB : DB :=
  ⟨[("u1", c6User)],
   [("g1", { name := "Main", members := [] }), ("g2", { name := "Second", members := [] })]⟩

/-- Witness for C6: a user with a primary group and two additional groups. -/
theorem groupList_primary_then_additional_witness :
    getAllUserGroups c6DB "u1" = .ok ["g1", "g2", "g3"] [("g1", "Main"), ("g2", "Second")] ∧
    getAllGroups c6DB "u1" = .ok "u1" ["g1", "g2", "g3"] 3 true ∧
    (["g1", "g2", "g3"] : List String).length = 1 + 2 :=
  groupList_primary_then_additional c6DB "u1" c6User rfl (by decide) (by decide)

/-- One element of the `getFamilyMembers` 200 payload. -/
structure FamilyMember where
  userID : String
  fullName : String
  imageURL : Option String
  role : String
  familialRelation : Option String
deriving DecidableEq

/-- Responses of `getFamilyMembers` (lines 386-436). -/
inductive FamilyMembersResponse where
  | userOrGroupNotFound
  | groupNotFound
  | ok (members : List FamilyMember)
deriving DecidableEq

def FamilyMembersResponse.status : FamilyMembersResponse → Nat
  | .userOrGroupNotFound => 404
  | .groupNotFound => 404
  | .ok _ => 200

def FamilyMembersResponse.message : FamilyMembersResponse → Option String
  | .userOrGroupNotFound => some "User or group not found"
  | .groupNotFound => some "Group not found or has no members"
  | .ok _ => none

/-- `User.find({_id: {$in: ids}})`: the user documents whose id is among
`ids`, in store order. -/
def usersAmong (db : DB) (ids : List String) : List (String × UserDoc) :=
  db.users.filter (fun p => ids.contains p.1)

/-- JS `String.prototype.trim()`: strip leading and trailing whitespace. -/
def jsTrim (s : String) : String :=
  String.mk (((s.data.dropWhile Char.isWhitespace).reverse.dropWhile Char.isWhitespace).reverse)

/-- One roster entry: `userMap.get(member.user)` feeds `fullName` (trimmed
first+last, `''` when absent) and `imageURL` (`|| null`); `role` is copied and
`familialRelation` goes through `|| null`. -/
def mkFamilyEntry (userMap : List (String × UserDoc)) (m : GroupMember) : FamilyMember :=
  let userInfo := findById userMap m.user
  { userID := m.user,
    fullName :=
      match userInfo with
      | some info => jsTrim ((info.firstName.getD "") ++ " " ++ (info.lastName.getD ""))
      | none => "",
    imageURL :=
      match userInfo with
      | some info => orNull info.imageURL
      | none => none,
    role := m.role,
    familialRelation := orNull m.familialRelation }

/-- The tail of `getFamilyMembers` from `Group.findById(targetGroupID)` on:
load the group, batch-fetch its members' user docs, build the keyed map and
assemble the roster (all members included). -/
def familyRosterFor (db : DB) (targetGroupID : String) : FamilyMembersResponse :=
  match findById db.groups targetGroupID with
  | none => .groupNotFound
  | some group =>
    let memberUserIDs := group.members.map (fun m => m.user)
    let userMap := usersAmong db memberUserIDs
    .ok (group.members.map (mkFamilyEntry userMap))

/-- `getFamilyMembers` (lines 386-436): 404 'User or group not found' when the
user is absent **or has no primary groupID** (checked before the query
override is consulted); otherwise the target group is the query override when
that is truthy (present and non-empty), else the primary `groupID`. -/
def getFamilyMembers (db : DB) (userID : String) (requestedGroupID : Option String) :
    FamilyMembersResponse :=
  match findById db.users userID with
  | none => .userOrGroupNotFound
  | some user =>
    match user.groupID with
    | none => .userOrGroupNotFound
    | some primary =>
      let targetGroupID := if truthyStr requestedGroupID then requestedGroupID.getD primary else primary
      familyRosterFor db targetGroupID

theorem findById_filter_none {α : Type} (store : List (String × α)) (p : String × α → Bool)
    (k : String) (h : findById store k = none) : findById (store.filter p) k = none := by
  induction store with
  | nil => rfl
  | cons a rest ih =>
    obtain ⟨ka, va⟩ := a
    rw [findById_cons] at h
    by_cases hk : ka = k
    · rw [if_pos hk] at h
      exact absurd h (by simp)
    · rw [if_neg hk] at h
      rw [List.filter_cons]
      by_cases hp : p (ka, va)
      · rw [if_pos hp, findById_cons, if_neg hk]
        exact ih h
      · rw [if_neg hp]
        exact ih h

theorem orNull_eq_self (s : Option String) (h : s ≠ some "") : orNull s = s := by
  cases s with
  | none => rfl
  | some v =>
    have hv : v ≠ "" := fun hv => h (by rw [hv])
    simp [orNull, hv]

/-- **C4 (amended).** Every successful `getFamilyMembers` response comes from
an existing group, has exactly one entry per group member in order, copies each
member's `role`, copies `familialRelation` whenever the stored value is not the
empty string (the code's `|| null` maps an empty string to null), and has
`fullName = ""` (never null) when no user profile matches the member's id. -/
theorem getFamilyMembers_roster_spec (db : DB) (userID : String) (q : Option String)
    (l : List FamilyMember) (h : getFamilyMembers db userID q = .ok l) :
    ∃ gid group, findById db.groups gid = some group ∧
      l.length = group.members.length ∧
      ∀ (i : Nat) (e : FamilyMember) (m : GroupMember),
        l[i]? = some e → group.members[i]? = some m →
        e.userID = m.user ∧ e.role = m.role ∧
        (m.familialRelation ≠ some "" → e.familialRelation = m.familialRelation) ∧
        (findById db.users m.user = none → e.fullName = "") := by
  unfold getFamilyMembers at h
  cases hu : findById db.users userID with
  | none =>
    rw [hu] at h
    exact FamilyMembersResponse.noConfusion h
  | some user =>
    simp only [hu] at h
    cases hg : user.groupID with
    | none =>
      rw [hg] at h
      exact FamilyMembersResponse.noConfusion h
    | some primary =>
      simp only [hg] at h
      unfold familyRosterFor at h
      cases hgr : findById db.groups
          (if truthyStr q then q.getD primary else primary) with
      | none =>
        rw [hgr] at h
        exact FamilyMembersResponse.noConfusion h
      | some group =>
        simp only [hgr] at h
        refine ⟨_, group, hgr, ?_, ?_⟩
        · rw [← FamilyMembersResponse.ok.inj h, List.length_map]
        · intro i e m he hm
          rw [← FamilyMembersResponse.ok.inj h] at he
          rw [List.getElem?_map, hm, Option.map_some'] at he
          have hem : e = mkFamilyEntry (usersAmong db (group.members.map (fun mm => mm.user))) m :=
            (Option.some.inj he).symm
          subst hem
          refine ⟨rfl, rfl, ?_, ?_⟩
          · intro hne
            exact orNull_eq_self m.familialRelation hne
          · intro hnone
            have hmapnone : findById (usersAmong db (group.members.map (fun mm => mm.user))) m.user = none :=
              findById_filter_none db.users _ m.user hnone
            simp only [mkFamilyEntry, hmapnone]

def c4User : UserDoc := { emptyUser with firstName := some "Ann", groupID := some "g1" }

def c4Group : GroupDoc :=
  { name := "G",
    members := [{ user := "u1", role := "admin", familialRelation := some "" },
                { user := "u9", role := "caregiver", familialRelation := none }] }

def c4DB : DB := ⟨[("u1", c4User)], [("g1", c4Group)]⟩

/-- The 200 payload that `getFamilyMembers` produces on `c4DB` for `u1`. -/
def c4Payload : List FamilyMember :=
  [{ userID := "u1", fullName := "Ann", imageURL := none, role := "admin",
     familialRelation := none },
   { userID := "u9", fullName := "", imageURL := none, role := "caregiver",
     familialRelation := none }]

/-- Counterexample to C4 as stated: group `g1`'s first member stores
`familialRelation = ""`, but the returned entry carries `null` (`none`), so the
entry's `familialRelation` does not match the group member entry. -/
theorem getFamilyMembers_famRel_empty_null :
    (findById c4DB.groups "g1").map (fun g => g.members.map GroupMember.familialRelation) =
      some [some "", none] ∧
    getFamilyMembers c4DB "u1" none = .ok c4Payload ∧
    (c4Payload.map FamilyMember.familialRelation = [none, none] ∧
      (some "" : Option String) ≠ none) := by
  refine ⟨rfl, by decide, by decide, by decide⟩

/-- Witness for the amended C4 at the concrete store `c4DB` (member `u9` has no
user profile, so its `fullName` is `""`). -/
theorem getFamilyMembers_roster_spec_witness :
    ∃ gid group, findById c4DB.groups gid = some group ∧
      c4Payload.length = group.members.length ∧
      ∀ (i : Nat) (e : FamilyMember) (m : GroupMember),
        c4Payload[i]? = some e → group.members[i]? = some m →
        e.userID = m.user ∧ e.role = m.role ∧
        (m.familialRelation ≠ some "" → e.familialRelation = m.familialRelation) ∧
        (findById c4DB.users m.user = none → e.fullName = "") :=
  getFamilyMembers_roster_spec c4DB "u1" none c4Payload (by decide)

/-- **C5 (amended).** `getFamilyMembers` answers 404
'User or group not found' whenever the user is absent or has no primary
`groupID` (even when an override is supplied); otherwise the target group is
the query override when a *non-empty* one is supplied (the `if
(requestedGroupID)` truthiness test skips an empty string), else the primary
`groupID`. -/
theorem getFamilyMembers_target_resolution (db : DB) (userID : String) (q : Option String) :
    (findById db.users userID = none →
      getFamilyMembers db userID q = .userOrGroupNotFound ∧
      (getFamilyMembers db userID q).status = 404 ∧
      (getFamilyMembers db userID q).message = some "User or group not found") ∧
    (∀ user : UserDoc, findById db.users userID = some user →
      (user.groupID = none →
        getFamilyMembers db userID q = .userOrGroupNotFound ∧
        (getFamilyMembers db userID q).status = 404 ∧
        (getFamilyMembers db userID q).message = some "User or group not found") ∧
      (∀ primary : String, user.groupID = some primary →
        (∀ s : String, q = some s → s ≠ "" →
          getFamilyMembers db userID q = familyRosterFor db s) ∧
        ((q = none ∨ q = some "") →
          getFamilyMembers db userID q = familyRosterFor db primary))) := by
  constructor
  · intro hu
    have h1 : getFamilyMembers db userID q = .userOrGroupNotFound := by
      unfold getFamilyMembers
      simp only [hu]
    exact ⟨h1, by rw [h1]; rfl, by rw [h1]; rfl⟩
  · intro user hu
    constructor
    · intro hg
      have h1 : getFamilyMembers db userID q = .userOrGroupNotFound := by
        unfold getFamilyMembers
        simp only [hu, hg]
      exact ⟨h1, by rw [h1]; rfl, by rw [h1]; rfl⟩
    · intro primary hg
      constructor
      · intro s hq hs
        have ht : truthyStr (some s) = true := by simp [truthyStr, hs]
        unfold getFamilyMembers
        simp [hu, hg, hq, ht]
      · intro hq
        have ht : truthyStr q = false := by
          rcases hq with rfl | rfl <;> rfl
        unfold getFamilyMembers
        simp [hu, hg, ht]

def c5User : UserDoc := { emptyUser with groupID := some "g1" }

def c5DB : DB :=
  ⟨[("u1", c5User), ("u2", emptyUser)],
   [("g1", { name := "G", members := [{ user := "u1", role := "admin", familialRelation := none }] })]⟩

/-- Counterexample to C5 as stated: the query-string override `""` is
supplied, no group with id `""` exists, yet the call succeeds with the primary
group's roster — the supplied override is not used as the target. -/
theorem getFamilyMembers_empty_override_ignored :
    findById c5DB.groups "" = none ∧
    getFamilyMembers c5DB "u1" (some "") =
      .ok [{ userID := "u1", fullName := "", imageURL := none, role := "admin",
             familialRelation := none }] ∧
    getFamilyMembers c5DB "u1" (some "") ≠ familyRosterFor c5DB "" := by
  refine ⟨rfl, by decide, by decide⟩

/-- Witness for the amended C5: a non-empty override is followed (even to a
non-existent group), no override falls back to the primary group, and a user
with no primary group gets the 404. -/
theorem getFamilyMembers_target_resolution_witness :
    getFamilyMembers c5DB "u1" (some "g9") = familyRosterFor c5DB "g9" ∧
    getFamilyMembers c5DB "u1" none = familyRosterFor c5DB "g1" ∧
    getFamilyMembers c5DB "u2" none = .userOrGroupNotFound := by
  have h1 := getFamilyMembers_target_resolution c5DB "u1" (some "g9")
  have h2 := getFamilyMembers_target_resolution c5DB "u1" none
  have h3 := getFamilyMembers_target_resolution c5DB "u2" none
  refine ⟨?_, ?_, ?_⟩
  · exact ((h1.2 c5User rfl).2 "g1" rfl).1 "g9" rfl (by decide)
  · exact ((h2.2 c5User rfl).2 "g1" rfl).2 (Or.inl rfl)
  · exact ((h3.2 emptyUser rfl).1 rfl).1

/-- Responses of `updateUserRole` (lines 482-549), one constructor per return
site, in source order. -/
inductive RoleUpdateResponse where
  | missingFields
  | invalidRole
  | notAdmin
  | groupNotFound
  | targetNotMember
  | selfChange
  | ok (userID role groupID : String)
deriving DecidableEq

def RoleUpdateResponse.status : RoleUpdateResponse → Nat
  | .missingFields => 400
  | .invalidRole => 400
  | .notAdmin => 403
  | .groupNotFound => 404
  | .targetNotMember => 404
  | .selfChange => 400
  | .ok _ _ _ => 200

def RoleUpdateResponse.message : RoleUpdateResponse → String
  | .missingFields => "User ID, target user ID, role, and group ID are required"
  | .invalidRole => "Invalid role. Must be admin, caregiver, or carereceiver"
  | .notAdmin => "Only group admins can update user roles"
  | .groupNotFound => "Group not found"
  | .targetNotMember => "Target user is not a member of this group"
  | .selfChange => "Cannot change your own role"
  | .ok _ _ _ => "User role updated successfully"

/-- Response plus the resulting group store (`group.save()` persists the
mutated document). -/
structure RoleUpdateResult where
  response : RoleUpdateResponse
  groups : List (String × GroupDoc)
deriving DecidableEq

def validRoles : List String := ["admin", "caregiver", "carereceiver"]

/-- `Array.prototype.findIndex`, with `-1` modelled as `none`. -/
def findIndex {α : Type} (p : α → Bool) : List α → Option Nat
  | [] => none
  | x :: xs => if p x then some 0 else (findIndex p xs).map (fun i => i + 1)

/-- `group.members[i].role = role`: overwrite the role of the member at
index `i`. -/
def setMemberRole : List GroupMember → Nat → String → List GroupMember
  | [], _, _ => []
  | m :: ms, 0, role => { m with role := role } :: ms
  | m :: ms, i + 1, role => m :: setMemberRole ms i role

/-- `updateUserRole` (lines 482-549): presence check (truthiness) → role
whitelist → admin gate via `isUserAdminOfGroup` → group load → target index →
self-change guard → in-place role update and save. -/
def updateUserRole (db : DB) (userID targetUserID role groupID : String) : RoleUpdateResult :=
  if userID = "" ∨ targetUserID = "" ∨ role = "" ∨ groupID = "" then
    ⟨.missingFields, db.groups⟩
  else if validRoles.contains role = false then
    ⟨.invalidRole, db.groups⟩
  else if isUserAdminOfGroup db userID groupID = false then
    ⟨.notAdmin, db.groups⟩
  else
    match findById db.groups groupID with
    | none => ⟨.groupNotFound, db.groups⟩
    | some group =>
      match findIndex (fun m => m.user == targetUserID) group.members with
      | none => ⟨.targetNotMember, db.groups⟩
      | some i =>
        if userID = targetUserID then ⟨.selfChange, db.groups⟩
        else
          ⟨.ok targetUserID role groupID,
            setStore db.groups groupID { group with members := setMemberRole group.members i role }⟩

theorem admin_member_exists (db : DB) (U G : String) (h : isUserAdminOfGroup db U G = true) :
    ∃ g, findById db.groups G = some g ∧ ∃ m ∈ g.members, m.user = U ∧ m.role = "admin" := by
  unfold isUserAdminOfGroup at h
  cases hg : findById db.groups G with
  | none => rw [hg] at h; simp at h
  | some g =>
    rw [hg] at h
    simp only [List.find?_isSome] at h
    obtain ⟨m, hm, hp⟩ := h
    refine ⟨g, rfl, m, hm, ?_⟩
    simpa [Bool.and_eq_true, beq_iff_eq] using hp

theorem findIndex_isSome_of_mem {α : Type} (p : α → Bool) (l : List α) (x : α)
    (hx : x ∈ l) (hp : p x = true) : ∃ i, findIndex p l = some i := by
  induction l with
  | nil => cases hx
  | cons y ys ih =>
    by_cases h : p y = true
    · exact ⟨0, by simp [findIndex, h]⟩
    · rcases List.mem_cons.mp hx with rfl | hx'
      · exact absurd hp h
      · obtain ⟨i, hi⟩ := ih hx'
        refine ⟨i + 1, ?_⟩
        simp [findIndex, h, hi]

/-- **C7.** With all four inputs present, a role outside
{admin, caregiver, carereceiver} is rejected with 400 before the admin check:
the result is the invalid-role 400 with the group store untouched, for *every*
store state — in particular it does not depend on whether the caller is an
admin, so no admin lookup influences it. -/
theorem updateUserRole_invalidRole_400 (db : DB) (userID targetUserID role groupID : String)
    (h1 : userID ≠ "") (h2 : targetUserID ≠ "") (h3 : role ≠ "") (h4 : groupID ≠ "")
    (hr : role ∉ validRoles) :
    updateUserRole db userID targetUserID role groupID = ⟨.invalidRole, db.groups⟩ ∧
    (updateUserRole db userID targetUserID role groupID).response.status = 400 := by
  have hc : validRoles.contains role = false := by
    cases h : validRoles.contains role with
    | false => rfl
    | true =>
      obtain ⟨a, ha, hbeq⟩ := List.contains_iff_exists_mem_beq.mp h
      exact absurd (by rw [eq_of_beq hbeq]; exact ha) hr
  have h0 : ¬(userID = "" ∨ targetUserID = "" ∨ role = "" ∨ groupID = "") := by
    simp [h1, h2, h3, h4]
  have hres : updateUserRole db userID targetUserID role groupID = ⟨.invalidRole, db.groups⟩ := by
    unfold updateUserRole
    rw [if_neg h0, if_pos hc]
  exact ⟨hres, by rw [hres]; rfl⟩

def c7DB : DB :=
  ⟨[], [("g1", { name := "G",
                 members := [{ user := "u1", role := "admin", familialRelation := none }] })]⟩

/-- Witness for C7: all four inputs present, role `"superadmin"` is invalid;
the store (where `u1` *is* an admin of `g1`) is untouched and never consulted. -/
theorem updateUserRole_invalidRole_400_witness :
    updateUserRole c7DB "u1" "u2" "superadmin" "g1" = ⟨.invalidRole, c7DB.groups⟩ ∧
    (updateUserRole c7DB "u1" "u2" "superadmin" "g1").response.status = 400 :=
  updateUserRole_invalidRole_400 c7DB "u1" "u2" "superadmin" "g1"
    (by decide) (by decide) (by decide) (by decide) (by decide)

def c2DB : DB :=
  ⟨[], [("g1", { name := "G",
                 members := [{ user := "u1", role := "caregiver", familialRelation := none }] })]⟩

/-- Counterexample to C2 as stated: a self-request (`userID = targetUserID =
u1`) with all inputs present and a valid role, where the caller is *not* an
admin, is answered 403 (the admin gate runs before the self-change guard), not
400. -/
theorem updateUserRole_self_nonAdmin_403 :
    (updateUserRole c2DB "u1" "u1" "caregiver" "g1").response = .notAdmin ∧
    (updateUserRole c2DB "u1" "u1" "caregiver" "g1").response.status = 403 ∧
    ¬((updateUserRole c2DB "u1" "u1" "caregiver" "g1").response.status = 400) := by
  refine ⟨by decide, by decide, by decide⟩

/-- **C2 (amended).** A self-request never changes the group store, and when it
passes the earlier guards — inputs present, role valid, caller an admin of the
group — it is rejected 400 'Cannot change your own role'. -/
theorem updateUserRole_self_rejected (db : DB) (userID role groupID : String)
    (h1 : userID ≠ "") (h3 : role ≠ "") (h4 : groupID ≠ "") :
    (updateUserRole db userID userID role groupID).groups = db.groups ∧
    (role ∈ validRoles → isUserAdminOfGroup db userID groupID = true →
      (updateUserRole db userID userID role groupID).response = .selfChange ∧
      (updateUserRole db userID userID role groupID).response.status = 400 ∧
      (updateUserRole db userID userID role groupID).response.message =
        "Cannot change your own role") := by
  constructor
  · unfold updateUserRole
    split
    · rfl
    · split
      · rfl
      · split
        · rfl
        · split
          · rfl
          · split
            · rfl
            · split
              · rfl
              · rename_i hne
                exact absurd rfl hne
  · intro hrole hadmin
    obtain ⟨g, hg, m, hm, hmu, hmr⟩ := admin_member_exists db userID groupID hadmin
    obtain ⟨i, hi⟩ :=
      findIndex_isSome_of_mem (fun mm => mm.user == userID) g.members m hm (by simp [hmu])
    have h0 : ¬(userID = "" ∨ userID = "" ∨ role = "" ∨ groupID = "") := by
      simp [h1, h3, h4]
    have hres : updateUserRole db userID userID role groupID = ⟨.selfChange, db.groups⟩ := by
      unfold updateUserRole
      rw [if_neg h0, if_neg (by simp [hrole]), if_neg (by simp [hadmin])]
      simp [hg, hi]
    exact ⟨by rw [hres], by rw [hres]; rfl, by rw [hres]; rfl⟩

def c2AdminDB : DB :=
  ⟨[], [("g1", { name := "G",
                 members := [{ user := "u1", role := "admin", familialRelation := none }] })]⟩

/-- Witness for the amended C2: `u1` is an admin of `g1` and asks to change
their own role to a valid one. -/
theorem updateUserRole_self_rejected_witness :
    (updateUserRole c2AdminDB "u1" "u1" "caregiver" "g1").groups = c2AdminDB.groups ∧
    (updateUserRole c2AdminDB "u1" "u1" "caregiver" "g1").response = .selfChange ∧
    (updateUserRole c2AdminDB "u1" "u1" "caregiver" "g1").response.status = 400 ∧
    (updateUserRole c2AdminDB "u1" "u1" "caregiver" "g1").response.message =
      "Cannot change your own role" := by
  have h := updateUserRole_self_rejected c2AdminDB "u1" "caregiver" "g1"
    (by decide) (by decide) (by decide)
  exact ⟨h.1, h.2 (by decide) (by decide)⟩

end UserController
